import Mathlib

/-!
Verification development for the RAG-Anything multimodal ingestion pipeline.

The Lean definitions below are a shallow embedding of the Python sources in
`raganything/` (raganything.py, processor.py, modalprocessors.py).  External
collaborators (the md5 hash, the tokenizer, the regex + JSON decoding of model
responses, the LLM caption call, the lightrag entity-extraction routine and the
filesystem) are passed in as explicit function parameters of an `Env` record,
exactly at the call boundaries where the Python code invokes them.
-/

set_option autoImplicit false

namespace RAGA

/-- A parsed content block (`content_list` element).  The Python code uses
duck-typed dictionaries; the fields below are the keys actually read by the
embedded functions (`type`, `text`, `img_path`, `img_caption`, `img_footnote`,
`table_body`, `table_caption`, `table_footnote`, `page_idx`).  A missing key
is represented by the default value (empty string / empty list). -/
structure ContentBlock where
  type : String := "text"
  text : String := ""
  imgPath : String := ""
  imgCaption : List String := []
  imgFootnote : List String := []
  tableBody : String := ""
  tableCaption : List String := []
  tableFootnote : List String := []
  pageIdx : Nat := 0
deriving Repr, DecidableEq, Inhabited

/-- Python `str.strip()` on code points: drop whitespace from both ends.
(Defined structurally so that it evaluates inside the kernel; `String.trim`
is definitionally opaque.) -/
def pyStrip (s : String) : String :=
  String.mk (((s.data.dropWhile Char.isWhitespace).reverse.dropWhile Char.isWhitespace).reverse)

/-- Python slicing `s[:n]` on code points. -/
def pyTake (s : String) (n : Nat) : String :=
  String.mk (s.data.take n)

/-- Loop body of `RAGAnything._separate_content` (raganything.py 351-394):
returns (text parts in stream order, multimodal items in stream order). -/
def separateContentAux : List ContentBlock → List String × List ContentBlock
  | [] => ([], [])
  | b :: rest =>
    let (tp, mi) := separateContentAux rest
    if b.type == "text" then
      if pyStrip b.text != "" then (b.text :: tp, mi) else (tp, mi)
    else
      (tp, b :: mi)

/-- `RAGAnything._separate_content` (raganything.py 351-394): text blocks whose
stripped text is nonempty are joined with blank lines; every block of any other
type becomes a multimodal item. -/
def separateContent (contentList : List ContentBlock) : String × List ContentBlock :=
  let (textParts, multimodalItems) := separateContentAux contentList
  (String.intercalate "\n\n" textParts, multimodalItems)

/-- The three-block input of the spec's end-to-end scenario. -/
def introBlock : ContentBlock := { type := "text", text := "Intro", pageIdx := 0 }

/-- Image block of the end-to-end scenario. -/
def figBlock : ContentBlock :=
  { type := "image", imgPath := "/tmp/fig1.png", imgCaption := ["Figure 1"], pageIdx := 0 }

/-- Final text block of the end-to-end scenario. -/
def conclusionBlock : ContentBlock := { type := "text", text := "Conclusion", pageIdx := 1 }

/-- The content-block list of the spec's end-to-end scenario. -/
def scenarioContent : List ContentBlock := [introBlock, figBlock, conclusionBlock]

/-- Counterexample input for classification: a whitespace-only text block
between two ordinary text blocks. -/
def blankMiddleBlocks : List ContentBlock :=
  [{ type := "text", text := "a" }, { type := "text", text := " " }, { type := "text", text := "b" }]

/-! ## ParseCache (processor.py 24-72 and 113-190) -/

/-- The fixed allow-list of parser options used by `_generate_cache_key`,
`_get_cached_result` and `_store_cached_result` (processor.py 51-65). -/
def allowedParserOptionKeys : List String :=
  ["lang", "device", "start_page", "end_page", "formula", "table", "backend", "source"]

/-- `relevant_kwargs = {k: v for k, v in kwargs.items() if k in [...]}`:
keyword arguments restricted to the allow-list, order preserved.  Option
values are modelled as their stringified form (they are only ever compared
and serialized). -/
def relevantKwargs (kwargs : List (String × String)) : List (String × String) :=
  kwargs.filter (fun kv => allowedParserOptionKeys.contains kv.1)

/-- Insert an entry into a key-sorted entry list. -/
def insertByKey (kv : String × String) : List (String × String) → List (String × String)
  | [] => [kv]
  | x :: xs => if kv.1 ≤ x.1 then kv :: x :: xs else x :: insertByKey kv xs

/-- Sort entries by key; models `json.dumps(config_dict, sort_keys=True)`'s
canonical key ordering. -/
def sortEntriesByKey : List (String × String) → List (String × String)
  | [] => []
  | x :: xs => insertByKey x (sortEntriesByKey xs)

/-- Canonical serialization of the config dictionary (models the sorted-key
JSON string fed to md5). -/
def serializeConfig (entries : List (String × String)) : String :=
  String.intercalate "," (entries.map fun kv => kv.1 ++ "=" ++ kv.2)

/-- `ProcessorMixin._generate_cache_key` (processor.py 24-72).  The external
`hashlib.md5` digest is the parameter `md5`, applied to the canonical
serialization of {absolute file path, mtime, parser, parse method} plus the
allow-listed kwargs. -/
def generateCacheKey (md5 : String → String) (absPath : String) (mtime : Int)
    (parserName parseMethod : String) (kwargs : List (String × String)) : String :=
  md5 (serializeConfig (sortEntriesByKey
    ([("file_path", absPath), ("mtime", toString mtime),
      ("parser", parserName), ("parse_method", parseMethod)] ++ relevantKwargs kwargs)))

/-- The parser-configuration snapshot compared by `_get_cached_result`
(processor.py 144-167): parser identity, parse method and the allow-listed
options. -/
structure ParseConfig where
  parserName : String
  parseMethod : String
  opts : List (String × String)
deriving Repr, DecidableEq

/-- The current resolved configuration built inside `_get_cached_result`
(processor.py 146-167). -/
def currentParseConfig (parserName parseMethod : String)
    (kwargs : List (String × String)) : ParseConfig :=
  ⟨parserName, parseMethod, relevantKwargs kwargs⟩

/-- A stored parse-cache entry (the value upserted by `_store_cached_result`,
processor.py 243-252). -/
structure CacheEntry where
  contentList : List ContentBlock
  docId : String
  mtime : Int
  parseConfig : ParseConfig
deriving Repr, DecidableEq

/-! ## Model-response parsing (modalprocessors.py 741-778, 865-902,
979-1016, 1083-1120)

`_parse_response`, `_parse_table_response`, `_parse_equation_response` and
`_parse_generic_response` are character-for-character the same code up to the
hard-coded content type; they are embedded once, parameterized by the content
type.  The external step `json.loads(re.search("..", response, re.DOTALL)
.group(0))` is the parameter `extract`; `extract response = none` models the
regex matching nothing or the JSON decode failing (both raise and are caught
by the same handler), and a returned `JsonResponse` carries exactly the fields
the code reads, each `Option` to model a possibly absent key. -/

/-- Fields of `response_data["entity_info"]` read by the parse routines. -/
structure JsonEntityInfo where
  entityName : Option String := none
  entityType : Option String := none
  summary : Option String := none
deriving Repr, DecidableEq

/-- Fields of the decoded response object read by the parse routines.
`entityInfo = none` models both an absent and an empty (falsy) dict: the code
treats the two identically (both fail the `not entity_data` / required-keys
checks). -/
structure JsonResponse where
  detailedDescription : Option String := none
  entityInfo : Option JsonEntityInfo := none
deriving Repr, DecidableEq

/-- Parsed entity info: name, type, summary. -/
structure EntityData where
  entityName : String
  entityType : String
  summary : String
deriving Repr, DecidableEq, Inhabited

/-- Whether the decoded response passes all checks of the parse routines:
nonempty `detailed_description`, truthy `entity_info`, and the three required
keys present. -/
def respWellFormed : Option JsonResponse → Bool
  | none => false
  | some rd =>
    (rd.detailedDescription.getD "" != "") &&
    (match rd.entityInfo with
     | none => false
     | some ei => ei.entityName.isSome && ei.entityType.isSome && ei.summary.isSome)

/-- The `except` branch of the parse routines: name `type_hash(response)`
unless an override name was supplied, entity type = content type, summary =
`response[:100] + "..."` when the response exceeds 100 characters, else the
response itself. -/
def fallbackEntity (contentType : String) (mdhash : String → String)
    (entityName : Option String) (response : String) : EntityData :=
  { entityName :=
      match entityName with
      | some n => n
      | none => contentType ++ "_" ++ mdhash response
    entityType := contentType
    summary := if 100 < response.length then pyTake response 100 ++ "..." else response }

/-- The shared parse routine (modalprocessors.py 741-778 for images; the
table/equation/generic variants differ only in `contentType`).  On success the
entity name is disambiguated with " (entity_type)" unless an override name was
supplied, in which case the override wins. -/
def parseResponse (extract : String → Option JsonResponse) (contentType : String)
    (mdhash : String → String) (entityName : Option String) (response : String) :
    String × EntityData :=
  match extract response with
  | none => (response, fallbackEntity contentType mdhash entityName response)
  | some rd =>
    let description := rd.detailedDescription.getD ""
    match rd.entityInfo with
    | none => (response, fallbackEntity contentType mdhash entityName response)
    | some ei =>
      if description = "" then
        (response, fallbackEntity contentType mdhash entityName response)
      else
        match ei.entityName, ei.entityType, ei.summary with
        | some n, some t, some s =>
          let finalName :=
            match entityName with
            | some ovr => ovr
            | none => n ++ " (" ++ t ++ ")"
          (description, ⟨finalName, t, s⟩)
        | _, _, _ => (response, fallbackEntity contentType mdhash entityName response)

/-- A 101-character response on which the brace-matching regex finds nothing. -/
def respLong : String := String.mk (List.replicate 101 'a')

/-! ## Storage-layer state and modal processors
(modalprocessors.py 360-1121, processor.py 429-616, raganything.py 163-195
and 516-535)

The lightrag storage collaborators (chunk store, graph, vector indices,
doc-status store) are modelled as explicit state; every upsert / merge / flush
is also appended to an event trace so ordering claims can be stated. -/

/-- Observable storage events, in chronological order. -/
inductive Event where
  | chunkUpsert (id : String)
  | nodeUpsert (name : String)
  | edgeUpsert (src tgt : String)
  | entityVdbUpsert (id : String)
  | chunkVdbUpsert (id : String)
  | relVdbUpsert (id : String)
  | statusUpsert (multimodalProcessed : Bool)
  | mergeCall
  | insertDone
deriving Repr, DecidableEq

/-- A persisted text-chunk record (`chunk_data`, modalprocessors.py 467-473). -/
structure ChunkRec where
  tokens : Nat
  content : String
  chunkOrderIndex : Nat
  fullDocId : String
  filePath : String
deriving Repr, DecidableEq

/-- A knowledge-graph node record (`node_data`, modalprocessors.py 479-486). -/
structure NodeRec where
  entityId : String
  entityType : String
  description : String
  sourceId : String
  filePath : String
deriving Repr, DecidableEq

/-- The per-document status record (`doc_status` entry).  A field absent from
the stored dict is read with `.get(key, default)`; the default field values
model that. -/
structure DocStatus where
  chunksCount : Nat := 0
  multimodalChunksList : List String := []
  multimodalChunksCount : Nat := 0
  multimodalProcessed : Bool := false
deriving Repr, DecidableEq, Inhabited

/-- Shared mutable storage (single document): chunk store, graph nodes and
edges, the three vector indices, the doc-status record, instrumentation
counters and the chronological event trace. -/
structure Store where
  textChunks : List (String × ChunkRec) := []
  graphNodes : List (String × NodeRec) := []
  graphEdges : List (String × String) := []
  entitiesVdb : List String := []
  chunksVdb : List String := []
  relationshipsVdb : List String := []
  docStatus : Option DocStatus := none
  createCalls : Nat := 0
  mergeCalls : Nat := 0
  events : List Event := []
deriving Repr, DecidableEq, Inhabited

/-- Keyed upsert on an association list (dict upsert semantics: replace the
value under an existing key, else append the entry). -/
def assocUpsert {α : Type} (l : List (String × α)) (k : String) (v : α) :
    List (String × α) :=
  if l.any (fun kv => kv.1 == k) then
    l.map (fun kv => if kv.1 == k then (k, v) else kv)
  else l ++ [(k, v)]

/-- Keyed lookup on an association list. -/
def assocFind {α : Type} (l : List (String × α)) (k : String) : Option α :=
  (l.find? (fun kv => kv.1 == k)).map Prod.snd

/-- Append an event to the trace. -/
def Store.pushEvent (st : Store) (e : Event) : Store :=
  { st with events := st.events ++ [e] }

/-- `text_chunks_db.upsert` with its event. -/
def Store.upsertChunk (st : Store) (id : String) (cd : ChunkRec) : Store :=
  { st.pushEvent (.chunkUpsert id) with textChunks := assocUpsert st.textChunks id cd }

/-- `knowledge_graph_inst.upsert_node` with its event. -/
def Store.upsertNode (st : Store) (name : String) (nd : NodeRec) : Store :=
  { st.pushEvent (.nodeUpsert name) with graphNodes := assocUpsert st.graphNodes name nd }

/-- `knowledge_graph_inst.upsert_edge` with its event (only the key is
modelled). -/
def Store.upsertEdge (st : Store) (src tgt : String) : Store :=
  { st.pushEvent (.edgeUpsert src tgt) with
    graphEdges := if st.graphEdges.contains (src, tgt) then st.graphEdges
                  else st.graphEdges ++ [(src, tgt)] }

/-- `entities_vdb.upsert` with its event (only the key is modelled). -/
def Store.upsertEntityVdb (st : Store) (id : String) : Store :=
  { st.pushEvent (.entityVdbUpsert id) with
    entitiesVdb := if st.entitiesVdb.contains id then st.entitiesVdb
                   else st.entitiesVdb ++ [id] }

/-- `chunks_vdb.upsert` with its event (only the key is modelled). -/
def Store.upsertChunkVdb (st : Store) (id : String) : Store :=
  { st.pushEvent (.chunkVdbUpsert id) with
    chunksVdb := if st.chunksVdb.contains id then st.chunksVdb
                 else st.chunksVdb ++ [id] }

/-- `relationships_vdb.upsert` with its event (only the key is modelled). -/
def Store.upsertRelVdb (st : Store) (id : String) : Store :=
  { st.pushEvent (.relVdbUpsert id) with
    relationshipsVdb := if st.relationshipsVdb.contains id then st.relationshipsVdb
                        else st.relationshipsVdb ++ [id] }

/-- `doc_status.upsert` followed by `doc_status.index_done_callback` with the
status event (recording the persisted `multimodal_processed` flag). -/
def Store.upsertStatus (st : Store) (ds : DocStatus) : Store :=
  { st.pushEvent (.statusUpsert ds.multimodalProcessed) with docStatus := some ds }

/-- `merge_nodes_and_edges` followed by the `_insert_done` flush. -/
def Store.mergeAndFlush (st : Store) : Store :=
  { (st.pushEvent .mergeCall).pushEvent .insertDone with mergeCalls := st.mergeCalls + 1 }

/-- Entry counter for `_create_entity_and_chunk` invocations. -/
def Store.incCreate (st : Store) : Store :=
  { st with createCalls := st.createCalls + 1 }

/-- The four modal-processor variants (modalprocessors.py 617-1121). -/
inductive Processor where
  | image
  | table
  | equation
  | generic
deriving Repr, DecidableEq

/-- Per-chunk extraction result: (extracted entity names, edge keys) — the
shape of one `(maybe_nodes, maybe_edges)` pair returned by
`extract_entities`. -/
abbrev ChunkResult := List String × List (String × String)

/-- External collaborators, passed in at the exact call boundaries of the
Python code: `mdhash` is lightrag's `compute_mdhash_id` md5 digest, `tokens`
the tokenizer's encoded length, `imgExists` the `Path(...).exists()` check,
`encodeImage` the base64 encoding (empty string = failure), `caption` the
model call (response text as a function of the processor's prompt contents),
`extract` the `re.search` + `json.loads` decoding of a response, and
`extractEntities` lightrag's `extract_entities` on a chunk's content.
`chunkTemplate` renders the `PROMPTS[..._chunk]` template (a pure string
format), and `reprBlock` is Python's `str(modal_content)`. -/
structure Env where
  mdhash : String → String
  tokens : String → Nat
  imgExists : String → Bool
  encodeImage : String → String
  caption : Processor → ContentBlock → String
  extract : String → Option JsonResponse
  extractEntities : String → List ChunkResult
  chunkTemplate : Processor → ContentBlock → String → String
  reprBlock : ContentBlock → String

/-- The `entity_info` dictionary returned by `_create_entity_and_chunk`
(modalprocessors.py 509-518): it always carries the created `chunk_id`. -/
structure EntityInfoOut where
  entityName : String
  entityType : String
  description : String
  chunkId : String
deriving Repr, DecidableEq

/-- The `belongs_to` pass of `_process_chunk_for_extraction`
(modalprocessors.py 557-592): for every extracted entity other than the modal
entity, upsert a graph edge and a relationship-vdb record and add the edge to
`maybe_edges`. -/
def belongsToPass (env : Env) (modalName : String) :
    List String → Store → List (String × String) → List (String × String) × Store
  | [], st, acc => (acc, st)
  | n :: ns, st, acc =>
    if n ≠ modalName then
      let st := st.upsertEdge n modalName
      let st := st.upsertRelVdb ("rel-" ++ env.mdhash (n ++ modalName))
      belongsToPass env modalName ns st (acc ++ [(n, modalName)])
    else
      belongsToPass env modalName ns st acc

/-- The outer loop over `chunk_results` in `_process_chunk_for_extraction`
(modalprocessors.py 558-592), producing `processed_chunk_results`. -/
def processExtractionResults (env : Env) (modalName : String) :
    List ChunkResult → Store → List ChunkResult × Store
  | [], st => ([], st)
  | cr :: rest, st =>
    let bp := belongsToPass env modalName cr.1 st []
    let prs := processExtractionResults env modalName rest bp.2
    ((cr.1, cr.2 ++ bp.1) :: prs.1, prs.2)

/-- `BaseModalProcessor._process_chunk_for_extraction` (modalprocessors.py
520-614): re-reads the chunk, upserts it into the chunk vector index, runs
entity extraction, adds `belongs_to` edges, and in non-batch mode immediately
merges and flushes.  The `none` branch models the `if not chunk_data: return`
early exit (unreachable right after the upsert in `_create_entity_and_chunk`). -/
def processChunkForExtraction (env : Env) (chunkId modalEntityName : String)
    (batchMode : Bool) (st : Store) : List ChunkResult × Store :=
  match assocFind st.textChunks chunkId with
  | none => ([], st)
  | some cd =>
    let pr := processExtractionResults env modalEntityName
      (env.extractEntities cd.content) (st.upsertChunkVdb chunkId)
    if batchMode then (pr.1, pr.2) else (pr.1, pr.2.mergeAndFlush)

/-- `BaseModalProcessor._create_entity_and_chunk` (modalprocessors.py
455-518): persist the chunk (content-hashed id), the carrier entity node, the
entity vector record, then run chunk extraction; returns (summary,
entity_info-with-chunk_id, chunk results). -/
def createEntityAndChunk (env : Env) (modalChunk : String) (e : EntityData)
    (filePath : String) (batchMode : Bool) (st : Store) :
    (String × EntityInfoOut × List ChunkResult) × Store :=
  let st := st.incCreate
  let chunkId := "chunk-" ++ env.mdhash modalChunk
  let chunkData : ChunkRec :=
    { tokens := env.tokens modalChunk, content := modalChunk, chunkOrderIndex := 0,
      fullDocId := chunkId, filePath := filePath }
  let st := st.upsertChunk chunkId chunkData
  let st := st.upsertNode e.entityName
    { entityId := e.entityName, entityType := e.entityType, description := e.summary,
      sourceId := chunkId, filePath := filePath }
  let st := st.upsertEntityVdb ("ent-" ++ env.mdhash e.entityName)
  let pc := processChunkForExtraction env chunkId e.entityName batchMode st
  ((e.summary,
    { entityName := e.entityName, entityType := e.entityType, description := e.summary,
      chunkId := chunkId },
    pc.1), pc.2)

/-- The `except` fallback entity of `ImageModalProcessor
.process_multimodal_content` (modalprocessors.py 731-738). -/
def imageFallbackEntity (env : Env) (item : ContentBlock)
    (entityName : Option String) : EntityData :=
  { entityName :=
      match entityName with
      | some n => n
      | none => "image_" ++ env.mdhash (env.reprBlock item)
    entityType := "image"
    summary := "Image content: " ++ pyTake (env.reprBlock item) 100 }

/-- Result of the image processor: either the 3-tuple of
`_create_entity_and_chunk`, or the 2-element fallback return of the `except`
branch (which does NOT go through `_create_entity_and_chunk`). -/
inductive ImageProcResult where
  | created (description : String) (info : EntityInfoOut) (chunkResults : List ChunkResult)
  | fallbackReturn (description : String) (entity : EntityData)
deriving Repr, DecidableEq

/-- `ImageModalProcessor.process_multimodal_content` (modalprocessors.py
645-739): a missing/empty image path, a failed existence check or a failed
base64 encoding raises inside the `try` and is caught by the blanket
`except`, which returns `(str(modal_content), fallback_entity)` without
creating any chunk or entity; otherwise the model is called, the response
parsed (with the uniform fallback of `_parse_response`) and
`_create_entity_and_chunk` invoked. -/
def imageProcess (env : Env) (item : ContentBlock) (entityName : Option String)
    (filePath : String) (batchMode : Bool) (st : Store) : ImageProcResult × Store :=
  if item.imgPath = "" ∨ env.imgExists item.imgPath = false then
    (.fallbackReturn (env.reprBlock item) (imageFallbackEntity env item entityName), st)
  else if env.encodeImage item.imgPath = "" then
    (.fallbackReturn (env.reprBlock item) (imageFallbackEntity env item entityName), st)
  else
    let response := env.caption .image item
    let pr := parseResponse env.extract "image" env.mdhash entityName response
    let modalChunk := env.chunkTemplate .image item pr.1
    let r := createEntityAndChunk env modalChunk pr.2 filePath batchMode st
    (.created r.1.1 r.1.2.1 r.1.2.2, r.2)

/-- `TableModalProcessor.process_multimodal_content` (modalprocessors.py
784-863): no surrounding `except` — every completion reaches
`_create_entity_and_chunk` (a `TODO: Add Retry Mechanism` comment marks that
no retry is performed). -/
def tableProcess (env : Env) (item : ContentBlock) (entityName : Option String)
    (filePath : String) (batchMode : Bool) (st : Store) :
    (String × EntityInfoOut × List ChunkResult) × Store :=
  let pr := parseResponse env.extract "table" env.mdhash entityName (env.caption .table item)
  createEntityAndChunk env (env.chunkTemplate .table item pr.1) pr.2 filePath batchMode st

/-- `EquationModalProcessor.process_multimodal_content` (modalprocessors.py
908-977): same structure as the table variant. -/
def equationProcess (env : Env) (item : ContentBlock) (entityName : Option String)
    (filePath : String) (batchMode : Bool) (st : Store) :
    (String × EntityInfoOut × List ChunkResult) × Store :=
  let pr := parseResponse env.extract "equation" env.mdhash entityName
    (env.caption .equation item)
  createEntityAndChunk env (env.chunkTemplate .equation item pr.1) pr.2 filePath batchMode st

/-- `GenericModalProcessor.process_multimodal_content` (modalprocessors.py
1022-1081): same structure, with the item's own content type threaded into
the parse fallback. -/
def genericProcess (env : Env) (item : ContentBlock) (contentType : String)
    (entityName : Option String) (filePath : String) (batchMode : Bool) (st : Store) :
    (String × EntityInfoOut × List ChunkResult) × Store :=
  let pr := parseResponse env.extract contentType env.mdhash entityName
    (env.caption .generic item)
  createEntityAndChunk env (env.chunkTemplate .generic item pr.1) pr.2 filePath batchMode st

/-! ## Processor registry and the multimodal processing stage -/

/-- The multimodal-processing toggles of `RAGAnythingConfig`
(raganything.py 66-81). -/
structure RAGAnythingConfig where
  enableImageProcessing : Bool := true
  enableTableProcessing : Bool := true
  enableEquationProcessing : Bool := true
deriving Repr, DecidableEq

/-- `RAGAnything._initialize_processors` (raganything.py 163-195): the
`modal_processors` dict, built in insertion order; each type-specific
processor is registered only when its toggle is enabled, the generic
processor always. -/
def initProcessors (cfg : RAGAnythingConfig) : List (String × Processor) :=
  (if cfg.enableImageProcessing then [("image", Processor.image)] else []) ++
  (if cfg.enableTableProcessing then [("table", Processor.table)] else []) ++
  (if cfg.enableEquationProcessing then [("equation", Processor.equation)] else []) ++
  [("generic", Processor.generic)]

/-- `dict.get` on the processor registry. -/
def dictGet (d : List (String × Processor)) (k : String) : Option Processor :=
  (d.find? (fun kv => kv.1 == k)).map Prod.snd

/-- `RAGAnything._get_processor_for_type` (raganything.py 516-535): the
types "image", "table" and "equation" map only to their same-type
processor; every other type falls to the generic processor. -/
def getProcessorForType (d : List (String × Processor)) (t : String) : Option Processor :=
  if t = "image" then dictGet d "image"
  else if t = "table" then dictGet d "table"
  else if t = "equation" then dictGet d "equation"
  else dictGet d "generic"

/-- Outcome of the loop body's call
`processor.process_multimodal_content(...)` as seen by the caller in
processor.py 505-543: `none` is any exception reaching the per-item `except`
(which logs and continues). -/
abbrev ItemRunner :=
  Processor → ContentBlock → Store → Option (String × EntityInfoOut × List ChunkResult) × Store

/-- Modelled from the spec: the per-item invocation glue of the intended
integration (the mixin host class and `raganything/utils.py` are not in src,
and the in-src call site passes `doc_id` / `chunk_order_index` keyword
arguments that the in-src processor signatures do not accept).  Under the
spec's contract the processor is called with the item, its type, the file
name and batch mode; an image-processor 2-element fallback return fails the
caller's 3-tuple unpacking and lands in the per-item `except`, hence `none`. -/
def repairedRunner (env : Env) (fileName : String) : ItemRunner := fun p item st =>
  match p with
  | .image =>
    match imageProcess env item none fileName true st with
    | (.created d info crs, st') => (some (d, info, crs), st')
    | (.fallbackReturn _ _, st') => (none, st')
  | .table =>
    let r := tableProcess env item none fileName true st
    (some r.1, r.2)
  | .equation =>
    let r := equationProcess env item none fileName true st
    (some r.1, r.2)
  | .generic =>
    let r := genericProcess env item item.type none fileName true st
    (some r.1, r.2)

/-- The faithful call semantics of this src snapshot: processor.py 508-522
passes the keyword arguments `doc_id` and `chunk_order_index`, which
`process_multimodal_content` (modalprocessors.py 645-653) does not accept, so
every call raises TypeError before the processor body runs and the per-item
`except` skips the item.  (raganything.py 462-470 likewise calls the
nonexistent method `process_multimodal_content_batch`, raising
AttributeError.) -/
def brokenRunner : ItemRunner := fun _ _ st => (none, st)

/-- The resumption check of `ProcessorMixin._process_multimodal_content`
(processor.py 444-463): already processed and at least as many recorded
multimodal chunks as items to process. -/
def resumeShortCircuit (st : Store) (items : List ContentBlock) : Bool :=
  match st.docStatus with
  | some ds => ds.multimodalProcessed && decide (items.length ≤ ds.multimodalChunksList.length)
  | none => false

/-- The per-item loop of `ProcessorMixin._process_multimodal_content`
(processor.py 489-543): look up the processor for the item's type (skip with a
warning when there is none), run it (skip on exception), extend
`all_chunk_results` and append the created `chunk_id`. -/
def processItemsLoop (run : ItemRunner) (procs : List (String × Processor)) :
    List ContentBlock → Store → List ChunkResult × List String × Store
  | [], st => ([], [], st)
  | item :: rest, st =>
    match getProcessorForType procs item.type with
    | none => processItemsLoop run procs rest st
    | some p =>
      let rr := run p item st
      match rr.1 with
      | none => processItemsLoop run procs rest rr.2
      | some r =>
        let rec0 := processItemsLoop run procs rest rr.2
        (r.2.2 ++ rec0.1, r.2.1.chunkId :: rec0.2.1, rec0.2.2)

/-- `ProcessorMixin._process_multimodal_content` (processor.py 429-616):
early return on no items or on the resumption check; then the item loop; then
— when at least one chunk id was produced and a doc-status record exists —
the doc-status upsert that appends the new chunk ids and sets
`multimodal_processed = True`; then — when there is at least one chunk
result — the single coordinated `merge_nodes_and_edges` plus flush. -/
def processMultimodalContent (run : ItemRunner) (procs : List (String × Processor))
    (items : List ContentBlock) (st : Store) : Store :=
  if items.isEmpty then st
  else if resumeShortCircuit st items then st
  else
    let lp := processItemsLoop run procs items st
    let allCrs := lp.1
    let ids := lp.2.1
    let st1 := lp.2.2
    let st2 :=
      if ids.isEmpty then st1
      else
        match st1.docStatus with
        | none => st1
        | some cur =>
          st1.upsertStatus
            { cur with
              multimodalChunksList := cur.multimodalChunksList ++ ids,
              multimodalChunksCount := (cur.multimodalChunksList ++ ids).length,
              multimodalProcessed := true }
    if allCrs.isEmpty then st2 else st2.mergeAndFlush

/-- Modelled from the spec: `insert_text_content` (raganything/utils.py, not
in src) delegates to `lightrag.ainsert`, which chunks and stores the text
stream and creates the document's status record; that record carries no
multimodal fields yet (they read as their defaults). -/
def insertTextModel (st : Store) : Store :=
  { st with docStatus := some { chunksCount := 1 } }

/-- `ProcessorMixin.process_document_complete`, post-parsing part
(processor.py 664-724): classify, insert nonempty text, then either process
the modal items or — with none — mark the status record
`multimodal_processed = True` if it exists and is not yet marked. -/
def processDocumentComplete (run : ItemRunner) (procs : List (String × Processor))
    (contentList : List ContentBlock) (st : Store) : Store :=
  let (textContent, modalItems) := separateContent contentList
  let st := if pyStrip textContent != "" then insertTextModel st else st
  if modalItems.isEmpty = false then
    processMultimodalContent run procs modalItems st
  else
    match st.docStatus with
    | some ds =>
      if ds.multimodalProcessed = false then
        st.upsertStatus
          { ds with multimodalChunksCount := ds.multimodalChunksList.length,
                    multimodalProcessed := true }
      else st
    | none => st

/-! ## Concrete environment for the end-to-end scenario -/

/-- The stub description-function response of the end-to-end scenario. -/
def stubResponse : String :=
  "\x7b\"detailed_description\":\"A diagram\",\"entity_info\":\x7b\"entity_name\":\"fig1\",\"entity_type\":\"image\",\"summary\":\"diagram\"\x7d\x7d"

/-- Concrete collaborator instantiation for the scenario runs: the hash digest
is a constant placeholder, the stub model always answers `stubResponse`, the
regex+JSON decoding maps exactly that string to its decoded fields, the
scenario image exists on disk, and entity extraction mines nothing from the
chunk. -/
def stubEnv : Env :=
  { mdhash := fun _ => "H"
    tokens := String.length
    imgExists := fun p => p == "/tmp/fig1.png"
    encodeImage := fun _ => "base64data"
    caption := fun _ _ => stubResponse
    extract := fun r =>
      if r == stubResponse then
        some { detailedDescription := some "A diagram",
               entityInfo := some { entityName := some "fig1", entityType := some "image",
                                    summary := some "diagram" } }
      else none
    extractEntities := fun _ => [([], [])]
    chunkTemplate := fun _ item cap =>
      cap ++ "|" ++ item.imgPath ++ "|" ++ item.tableBody ++ "|" ++ item.text
    reprBlock := fun b => b.type ++ ":" ++ b.imgPath }

/-- An image block whose file does not exist on disk. -/
def missingImgBlock : ContentBlock := { type := "image", imgPath := "/tmp/missing.png" }

/-- A table block (used with table processing disabled). -/
def tableBlockC2 : ContentBlock := { type := "table", tableBody := "|a|b|", pageIdx := 0 }

/-- Store holding the doc-status record created by the text insertion, with
no multimodal fields yet. -/
def stAfterText : Store := { docStatus := some { chunksCount := 1 } }

/-- The empty storage state. -/
def emptyStore : Store := {}

/-- The storage state after the item loop of a single-image run over
`stAfterText` (file name "doc.pdf"): one chunk, one carrier node, one entity
vector record, one chunk vector record, one creation call, and the four
corresponding events — the doc status not yet updated. -/
def c2LoopStore : Store :=
  { textChunks := [("chunk-H",
      { tokens := 25, content := "A diagram|/tmp/fig1.png||", chunkOrderIndex := 0,
        fullDocId := "chunk-H", filePath := "doc.pdf" })],
    graphNodes := [("fig1 (image)",
      { entityId := "fig1 (image)", entityType := "image", description := "diagram",
        sourceId := "chunk-H", filePath := "doc.pdf" })],
    entitiesVdb := ["ent-H"],
    chunksVdb := ["chunk-H"],
    docStatus := some { chunksCount := 1 },
    createCalls := 1,
    events := [.chunkUpsert "chunk-H", .nodeUpsert "fig1 (image)",
               .entityVdbUpsert "ent-H", .chunkVdbUpsert "chunk-H"] }

/-- The aggregate report returned by `process_folder_complete`
(raganything.py 752-757). -/
structure BatchOutcome where
  total : Nat
  success : Nat
  failed : Nat
  failedFiles : List (String × String)
deriving Repr, DecidableEq

/-- The `process_single_file` task body over all discovered files
(raganything.py 697-739): each file's `process_document_complete` outcome is
abstracted as an `Except` (`.error msg` is the caught exception with its
message); a success increments `processed_count`, a failure is appended to
`failed_files` and the loop continues with the remaining files. -/
def runBatch : List (String × Except String Unit) → Nat → List (String × String) →
    Nat × List (String × String)
  | [], cnt, fails => (cnt, fails)
  | (name, r) :: rest, cnt, fails =>
    match r with
    | .ok _ => runBatch rest (cnt + 1) fails
    | .error e => runBatch rest cnt (fails ++ [(name, e)])

/-- Number of files whose processing succeeded. -/
def batchSuccessCount (files : List (String × Except String Unit)) : Nat :=
  (files.filter fun nr => match nr.2 with | .ok _ => true | .error _ => false).length

/-- The (file, error message) pairs of the failing files, in list order. -/
def batchFailures (files : List (String × Except String Unit)) : List (String × String) :=
  files.filterMap fun nr => match nr.2 with | .error e => some (nr.1, e) | .ok _ => none

/-- `RAGAnything.process_folder_complete` (raganything.py 597-757) after file
discovery: `folderOk` is the upfront `folder_path.exists() and is_dir()`
check, whose failure raises ValueError (the only exception surfaced to the
caller); `files` are the discovered files paired with their processing
outcome.  With no discovered files the function logs and returns `None`
(modelled as `.ok none`); otherwise it returns the aggregate report. -/
def processFolderComplete (folderOk : Bool)
    (files : List (String × Except String Unit)) : Except String (Option BatchOutcome) :=
  if !folderOk then .error "Folder does not exist or is not a valid directory"
  else if files.isEmpty then .ok none
  else
    let (cnt, fails) := runBatch files 0 []
    .ok (some { total := files.length, success := cnt, failed := fails.length,
                failedFiles := fails })

/-- `ProcessorMixin._get_cached_result` (processor.py 113-190): validity
checks on the fetched entry.  `mtime` equality is the exact `!=` comparison of
the code (the float value is modelled as an integer-valued timestamp; the
comparison semantics are identical), then the configuration snapshot is
compared, then the entry must have a nonempty content list and doc id. -/
def getCachedResult (cached : Option CacheEntry) (currentMtime : Int)
    (currentConfig : ParseConfig) : Option (List ContentBlock × String) :=
  match cached with
  | none => none
  | some cd =>
    if currentMtime ≠ cd.mtime then none
    else if cd.parseConfig ≠ currentConfig then none
    else if cd.contentList ≠ [] ∧ cd.docId ≠ "" then some (cd.contentList, cd.docId)
    else none

end RAGA

namespace RAGA

theorem separateContentAux_spec (l : List ContentBlock) :
    separateContentAux l =
      ((l.filter (fun b => b.type == "text" && pyStrip b.text != "")).map ContentBlock.text,
       l.filter (fun b => b.type != "text")) := by
  induction l with
  | nil => rfl
  | cons b rest ih =>
    cases h1 : b.type == "text" with
    | true =>
      cases h2 : pyStrip b.text != "" with
      | true =>
        have h2' : ¬ pyStrip b.text = "" := by simpa [bne] using h2
        simp [separateContentAux, ih, List.filter_cons, h1, h2', bne]
      | false =>
        have h2' : pyStrip b.text = "" := by simpa [bne] using h2
        simp [separateContentAux, ih, List.filter_cons, h1, h2', bne]
    | false => simp [separateContentAux, ih, List.filter_cons, h1, bne]

/-- Claim C8 (amended): classification keeps every non-text block, in original
stream order, as a multimodal item (so the non-text count equals the modal-item
count), and concatenates in stream order, separated by blank lines, exactly the
text blocks whose stripped text is nonempty; a text block whose text is empty or
whitespace-only is dropped and appears in neither output. -/
theorem c8_separate_content_amended (l : List ContentBlock) :
    separateContent l =
      (String.intercalate "\n\n"
        ((l.filter (fun b => b.type == "text" && pyStrip b.text != "")).map ContentBlock.text),
       l.filter (fun b => b.type != "text")) ∧
    (separateContent l).2.length = (l.filter (fun b => b.type != "text")).length := by
  constructor
  · simp [separateContent, separateContentAux_spec]
  · simp [separateContent, separateContentAux_spec]

/-- Claim C8 counterexample: on `[text "a", text " ", text "b"]` the
whitespace-only middle block is dropped: it does not appear in the modal-item
list, and the text output is "a\n\nb", not the blank-line concatenation of all
three text blocks in stream order ("a\n\n \n\nb") that the claim requires. -/
theorem c8_counterexample :
    (separateContent blankMiddleBlocks).2 = [] ∧
    (separateContent blankMiddleBlocks).1 = "a\n\nb" ∧
    (separateContent blankMiddleBlocks).1 ≠
      String.intercalate "\n\n"
        ((blankMiddleBlocks.filter (fun b => b.type == "text")).map ContentBlock.text) := by
  refine ⟨rfl, rfl, ?_⟩
  decide

theorem relevantKwargs_append_irrelevant (kw : List (String × String)) (k v : String)
    (h : allowedParserOptionKeys.contains k = false) :
    relevantKwargs (kw ++ [(k, v)]) = relevantKwargs kw := by
  have h' : k ∉ allowedParserOptionKeys := by simpa using h
  simp [relevantKwargs, List.filter_append, h']

/-- Claim C7: the parse-cache key is a deterministic function of exactly
{absolute file path, mtime, parser identity, parse method, allow-listed
options}: any two kwargs dictionaries whose allow-listed restrictions agree
give the identical key (in particular, identical inputs give identical keys),
and appending any keyword argument whose key is outside the allow-list never
changes the key.  The md5 digest is universally quantified, so the statement
holds for the real hash. -/
theorem c7_cache_key_exact_inputs :
    (∀ (md5 : String → String) (p : String) (m : Int) (pr pm : String)
        (kw1 kw2 : List (String × String)),
        relevantKwargs kw1 = relevantKwargs kw2 →
        generateCacheKey md5 p m pr pm kw1 = generateCacheKey md5 p m pr pm kw2) ∧
    (∀ (md5 : String → String) (p : String) (m : Int) (pr pm : String)
        (kw : List (String × String)) (k v : String),
        allowedParserOptionKeys.contains k = false →
        generateCacheKey md5 p m pr pm (kw ++ [(k, v)]) =
          generateCacheKey md5 p m pr pm kw) := by
  constructor
  · intro md5 p m pr pm kw1 kw2 h
    simp [generateCacheKey, h]
  · intro md5 p m pr pm kw k v h
    simp [generateCacheKey, relevantKwargs_append_irrelevant kw k v h]

/-- Claim C7 witness: concrete evaluation — an unlisted kwarg (`display_stats`)
does not alter the key. -/
theorem c7_cache_key_exact_inputs_witness :
    generateCacheKey id "/a/b.pdf" 17 "mineru" "auto"
        ([("lang", "en")] ++ [("display_stats", "True")]) =
      generateCacheKey id "/a/b.pdf" 17 "mineru" "auto" [("lang", "en")] :=
  c7_cache_key_exact_inputs.2 id "/a/b.pdf" 17 "mineru" "auto"
    [("lang", "en")] "display_stats" "True" (by decide)

/-- Claim C6: a cached (content list, doc id) pair is returned only when the
stored modification time exactly equals the current one and the stored
configuration snapshot equals the current resolved configuration; if either
comparison fails, the lookup is a miss (`none`), forcing a re-parse. -/
theorem c6_cache_validity :
    (∀ (cached : Option CacheEntry) (m : Int) (cfg : ParseConfig)
        (r : List ContentBlock × String),
        getCachedResult cached m cfg = some r →
        ∃ cd, cached = some cd ∧ cd.mtime = m ∧ cd.parseConfig = cfg ∧
          r = (cd.contentList, cd.docId)) ∧
    (∀ (cd : CacheEntry) (m : Int) (cfg : ParseConfig),
        cd.mtime ≠ m ∨ cd.parseConfig ≠ cfg →
        getCachedResult (some cd) m cfg = none) := by
  constructor
  · intro cached m cfg r h
    cases cached with
    | none => simp [getCachedResult] at h
    | some cd =>
      simp only [getCachedResult] at h
      by_cases h1 : m ≠ cd.mtime
      · rw [if_pos h1] at h
        exact Option.noConfusion h
      · rw [if_neg h1] at h
        by_cases h2 : cd.parseConfig ≠ cfg
        · rw [if_pos h2] at h
          exact Option.noConfusion h
        · rw [if_neg h2] at h
          by_cases h3 : cd.contentList ≠ [] ∧ cd.docId ≠ ""
          · rw [if_pos h3] at h
            injection h with h'
            exact ⟨cd, rfl, (not_not.mp h1).symm, not_not.mp h2, h'.symm⟩
          · rw [if_neg h3] at h
            exact Option.noConfusion h
  · intro cd m cfg h
    simp only [getCachedResult]
    split_ifs with h1 h2 h3
    · rfl
    · rfl
    · exfalso
      push_neg at h1 h2
      rcases h with h | h
      · exact h h1.symm
      · exact h h2
    · rfl

/-- Claim C4 (amended): whenever the decoded response fails any of the parse
checks (no JSON object found / decode error, empty or missing
`detailed_description`, falsy `entity_info`, or a missing required field),
the parse routine does not raise: it returns the raw response as the
description with a synthetic entity whose name is the content type joined by
an underscore with the hash of the response (when no override name was
supplied), whose type is the content type, and whose summary is the raw
response when it has at most 100 characters, else the first 100 characters of
the response followed by "..." (not a bare truncation to 100 characters). -/
theorem c4_parse_fallback (extract : String → Option JsonResponse) (ct : String)
    (md : String → String) (en : Option String) (response : String)
    (h : respWellFormed (extract response) = false) :
    parseResponse extract ct md en response =
      (response,
       { entityName :=
           match en with
           | some o => o
           | none => ct ++ "_" ++ md response
         entityType := ct
         summary :=
           if 100 < response.length then pyTake response 100 ++ "..." else response }) := by
  cases hx : extract response with
  | none => simp [parseResponse, fallbackEntity, hx]
  | some rd =>
    cases hei : rd.entityInfo with
    | none => simp [parseResponse, fallbackEntity, hx, hei]
    | some ei =>
      by_cases hd : rd.detailedDescription.getD "" = ""
      · simp [parseResponse, fallbackEntity, hx, hei, hd]
      · cases hn : ei.entityName with
        | none => simp [parseResponse, fallbackEntity, hx, hei, hd, hn]
        | some n =>
          cases ht : ei.entityType with
          | none => simp [parseResponse, fallbackEntity, hx, hei, hd, hn, ht]
          | some t =>
            cases hs : ei.summary with
            | none => simp [parseResponse, fallbackEntity, hx, hei, hd, hn, ht, hs]
            | some s =>
              exfalso
              simp [respWellFormed, hx, hei, hn, ht, hs, hd] at h

/-- Claim C4 witness: a non-JSON response string with no override name yields
the raw response as description and the synthetic `table_<hash>` entity. -/
theorem c4_parse_fallback_witness :
    parseResponse (fun _ => none) "table" (fun _ => "H") none "oops" =
      ("oops", { entityName := "table_H", entityType := "table", summary := "oops" }) :=
  (c4_parse_fallback (fun _ => none) "table" (fun _ => "H") none "oops" (by decide)).trans
    (by decide)

/-- Claim C4 counterexample: for a 101-character non-JSON response (on which
the brace regex matches nothing, modelled by the extractor returning `none`),
the fallback summary is NOT the raw response truncated to 100 characters — it
is the first 100 characters followed by "...". -/
theorem c4_counterexample :
    (parseResponse (fun _ => none) "image" (fun _ => "H") none respLong).2.summary ≠
      pyTake respLong 100 ∧
    (parseResponse (fun _ => none) "image" (fun _ => "H") none respLong).2.summary =
      pyTake respLong 100 ++ "..." := by
  constructor
  · decide
  · decide

theorem runBatch_spec (files : List (String × Except String Unit)) (cnt : Nat)
    (fails : List (String × String)) :
    runBatch files cnt fails = (cnt + batchSuccessCount files, fails ++ batchFailures files) := by
  induction files generalizing cnt fails with
  | nil => simp [runBatch, batchSuccessCount, batchFailures]
  | cons nr rest ih =>
    obtain ⟨name, r⟩ := nr
    cases r with
    | ok u =>
      simp only [runBatch, ih, batchSuccessCount, batchFailures, List.filter_cons,
        List.filterMap_cons]
      simp [Prod.mk.injEq]
      omega
    | error e =>
      simp only [runBatch, ih, batchSuccessCount, batchFailures, List.filter_cons,
        List.filterMap_cons]
      simp [Prod.mk.injEq]

theorem batch_counts_total (files : List (String × Except String Unit)) :
    batchSuccessCount files + (batchFailures files).length = files.length := by
  induction files with
  | nil => rfl
  | cons nr rest ih =>
    obtain ⟨name, r⟩ := nr
    cases r with
    | ok u =>
      simp only [batchSuccessCount, batchFailures, List.filter_cons, List.filterMap_cons] at *
      simp at *
      omega
    | error e =>
      simp only [batchSuccessCount, batchFailures, List.filter_cons, List.filterMap_cons] at *
      simp at *
      omega

theorem processFolderComplete_report (f0 : String × Except String Unit)
    (rest : List (String × Except String Unit)) :
    processFolderComplete true (f0 :: rest) =
      .ok (some { total := (f0 :: rest).length,
                  success := batchSuccessCount (f0 :: rest),
                  failed := (batchFailures (f0 :: rest)).length,
                  failedFiles := batchFailures (f0 :: rest) }) := by
  simp [processFolderComplete, runBatch_spec]

/-- Claim C9: with an existing target folder, batch processing never raises —
it returns the aggregate report {total, succeeded, failed, per-file failure
details}: the total is the number of discovered files, every failing file is
recorded in order with its error message, the success count accounts for all
remaining files (success + failed = total), and the only error surfaced to the
caller is the upfront configuration check on the target folder. -/
theorem c9_batch_isolation :
    (∀ files, files ≠ [] →
        processFolderComplete true files =
          .ok (some { total := files.length, success := batchSuccessCount files,
                      failed := (batchFailures files).length,
                      failedFiles := batchFailures files }) ∧
        batchSuccessCount files + (batchFailures files).length = files.length) ∧
    (∀ files, ∃ r, processFolderComplete true files = .ok r) ∧
    (∀ files, processFolderComplete false files =
        .error "Folder does not exist or is not a valid directory") := by
  refine ⟨?_, ?_, ?_⟩
  · intro files hne
    cases files with
    | nil => exact absurd rfl hne
    | cons f rest =>
      exact ⟨processFolderComplete_report f rest, batch_counts_total (f :: rest)⟩
  · intro files
    cases files with
    | nil => exact ⟨none, rfl⟩
    | cons f rest => exact ⟨_, processFolderComplete_report f rest⟩
  · intro files
    rfl

/-- Claim C9 witness: a three-file batch whose middle file fails with a
permission error yields the report (3 total, 2 succeeded, 1 failed, the
failing file recorded with its message), with no exception. -/
theorem c9_batch_isolation_witness :
    processFolderComplete true
        [("a.pdf", .ok ()), ("b.pdf", .error "Permission denied"), ("c.pdf", .ok ())] =
      .ok (some { total := 3, success := 2, failed := 1,
                  failedFiles := [("b.pdf", "Permission denied")] }) :=
  ((c9_batch_isolation.1
      [("a.pdf", .ok ()), ("b.pdf", .error "Permission denied"), ("c.pdf", .ok ())]
      (by simp)).1).trans (by rfl)

@[simp] theorem createCalls_pushEvent (st : Store) (e : Event) :
    (st.pushEvent e).createCalls = st.createCalls := rfl

@[simp] theorem createCalls_upsertChunk (st : Store) (id : String) (cd : ChunkRec) :
    (st.upsertChunk id cd).createCalls = st.createCalls := rfl

@[simp] theorem createCalls_upsertNode (st : Store) (n : String) (nd : NodeRec) :
    (st.upsertNode n nd).createCalls = st.createCalls := rfl

@[simp] theorem createCalls_upsertEdge (st : Store) (s t : String) :
    (st.upsertEdge s t).createCalls = st.createCalls := rfl

@[simp] theorem createCalls_upsertEntityVdb (st : Store) (id : String) :
    (st.upsertEntityVdb id).createCalls = st.createCalls := rfl

@[simp] theorem createCalls_upsertChunkVdb (st : Store) (id : String) :
    (st.upsertChunkVdb id).createCalls = st.createCalls := rfl

@[simp] theorem createCalls_upsertRelVdb (st : Store) (id : String) :
    (st.upsertRelVdb id).createCalls = st.createCalls := rfl

@[simp] theorem createCalls_upsertStatus (st : Store) (ds : DocStatus) :
    (st.upsertStatus ds).createCalls = st.createCalls := rfl

@[simp] theorem createCalls_mergeAndFlush (st : Store) :
    st.mergeAndFlush.createCalls = st.createCalls := rfl

theorem belongsToPass_createCalls (env : Env) (m : String) (ns : List String) :
    ∀ (st : Store) (acc : List (String × String)),
      (belongsToPass env m ns st acc).2.createCalls = st.createCalls := by
  induction ns with
  | nil => intro st acc; rfl
  | cons n ns ih =>
    intro st acc
    by_cases h : n ≠ m
    · simp [belongsToPass, h, ih]
    · simp [belongsToPass, h, ih]

theorem processExtractionResults_createCalls (env : Env) (m : String)
    (crs : List ChunkResult) :
    ∀ st : Store, (processExtractionResults env m crs st).2.createCalls = st.createCalls := by
  induction crs with
  | nil => intro st; rfl
  | cons cr rest ih =>
    intro st
    simp [processExtractionResults, ih, belongsToPass_createCalls]

theorem processChunkForExtraction_createCalls (env : Env) (cid men : String)
    (bm : Bool) (st : Store) :
    (processChunkForExtraction env cid men bm st).2.createCalls = st.createCalls := by
  cases h : assocFind st.textChunks cid with
  | none => simp [processChunkForExtraction, h]
  | some cd =>
    cases bm <;> simp [processChunkForExtraction, h, processExtractionResults_createCalls]

theorem createEntityAndChunk_createCalls (env : Env) (mc : String) (e : EntityData)
    (fp : String) (bm : Bool) (st : Store) :
    (createEntityAndChunk env mc e fp bm st).2.createCalls = st.createCalls + 1 := by
  simp [createEntityAndChunk, processChunkForExtraction_createCalls, Store.incCreate]

/-- Claim C3 (amended): the table, equation and generic processors invoke
`_create_entity_and_chunk` exactly once on every completion (parsed or
parse-fallback response alike, with no retry), and so does the image
processor whenever the image file exists and encodes; but the image
processor's exception fallback (e.g. the image file missing on disk)
completes by returning a description and a fallback entity WITHOUT invoking
`_create_entity_and_chunk` and leaves the stores untouched — so a completion
returning a description and entity with no creation call does exist. -/
theorem c3_create_called_once :
    (∀ (env : Env) (item : ContentBlock) (en : Option String) (fp : String)
        (bm : Bool) (st : Store),
        (tableProcess env item en fp bm st).2.createCalls = st.createCalls + 1 ∧
        (equationProcess env item en fp bm st).2.createCalls = st.createCalls + 1 ∧
        (∀ ct, (genericProcess env item ct en fp bm st).2.createCalls = st.createCalls + 1)) ∧
    (∀ (env : Env) (item : ContentBlock) (en : Option String) (fp : String)
        (bm : Bool) (st : Store),
        item.imgPath ≠ "" → env.imgExists item.imgPath = true →
        env.encodeImage item.imgPath ≠ "" →
        (imageProcess env item en fp bm st).2.createCalls = st.createCalls + 1) ∧
    (∀ (env : Env) (item : ContentBlock) (en : Option String) (fp : String)
        (bm : Bool) (st : Store),
        env.imgExists item.imgPath = false →
        imageProcess env item en fp bm st =
          (.fallbackReturn (env.reprBlock item) (imageFallbackEntity env item en), st)) := by
  refine ⟨?_, ?_, ?_⟩
  · intro env item en fp bm st
    exact ⟨by simp [tableProcess, createEntityAndChunk_createCalls],
           by simp [equationProcess, createEntityAndChunk_createCalls],
           fun ct => by simp [genericProcess, createEntityAndChunk_createCalls]⟩
  · intro env item en fp bm st h1 h2 h3
    simp [imageProcess, h1, h2, h3, createEntityAndChunk_createCalls]
  · intro env item en fp bm st h
    simp [imageProcess, h]

/-- Claim C3 witness: a successful image run performs exactly one creation
call, and a missing-file image run completes with the fallback return and no
creation call. -/
theorem c3_create_called_once_witness :
    (imageProcess stubEnv figBlock none "doc.pdf" true stAfterText).2.createCalls =
        stAfterText.createCalls + 1 ∧
    imageProcess stubEnv missingImgBlock none "doc.pdf" true emptyStore =
      (.fallbackReturn (stubEnv.reprBlock missingImgBlock)
        (imageFallbackEntity stubEnv missingImgBlock none), emptyStore) :=
  ⟨c3_create_called_once.2.1 stubEnv figBlock none "doc.pdf" true stAfterText
      (by decide) (by decide) (by decide),
   c3_create_called_once.2.2 stubEnv missingImgBlock none "doc.pdf" true emptyStore
      (by decide)⟩

/-- Claim C3 counterexample: the image processor on `/tmp/missing.png`
completes, returning a description and a syntactically valid fallback entity,
with zero `_create_entity_and_chunk` calls and the storage state unchanged —
refuting "there is no completion of a modal item that returns a description
and entity without having called the entity-and-chunk creation routine". -/
theorem c3_counterexample :
    imageProcess stubEnv missingImgBlock none "doc.pdf" true emptyStore =
      (.fallbackReturn "image:/tmp/missing.png"
        { entityName := "image_H", entityType := "image",
          summary := "Image content: image:/tmp/missing.png" }, emptyStore) ∧
    emptyStore.createCalls = 0 ∧ emptyStore.textChunks = [] :=
  ⟨rfl, rfl, rfl⟩

/-- Claim C10: with a type-specific toggle disabled, processor lookup for that
exact type ("image"/"table"/"equation") returns none — it never falls back to
the generic processor, which serves only types outside these three — and an
item whose lookup fails is skipped entirely by the processing loop: no chunk,
entity or merge input is produced for it and no exception is raised. -/
theorem c10_processor_gating :
    (∀ cfg : RAGAnythingConfig,
        (cfg.enableImageProcessing = false →
          getProcessorForType (initProcessors cfg) "image" = none) ∧
        (cfg.enableTableProcessing = false →
          getProcessorForType (initProcessors cfg) "table" = none) ∧
        (cfg.enableEquationProcessing = false →
          getProcessorForType (initProcessors cfg) "equation" = none)) ∧
    (∀ (cfg : RAGAnythingConfig) (t : String),
        t ≠ "image" → t ≠ "table" → t ≠ "equation" →
        getProcessorForType (initProcessors cfg) t = some .generic) ∧
    (∀ (run : ItemRunner) (procs : List (String × Processor)) (item : ContentBlock)
        (rest : List ContentBlock) (st : Store),
        getProcessorForType procs item.type = none →
        processItemsLoop run procs (item :: rest) st = processItemsLoop run procs rest st) := by
  refine ⟨?_, ?_, ?_⟩
  · rintro ⟨bi, bt, be⟩
    refine ⟨?_, ?_, ?_⟩
    · intro h
      cases h
      cases bt <;> cases be <;> rfl
    · intro h
      cases h
      cases bi <;> cases be <;> rfl
    · intro h
      cases h
      cases bi <;> cases bt <;> rfl
  · rintro ⟨bi, bt, be⟩ t h1 h2 h3
    simp only [getProcessorForType, if_neg h1, if_neg h2, if_neg h3]
    cases bi <;> cases bt <;> cases be <;> rfl
  · intro run procs item rest st h
    simp [processItemsLoop, h]

/-- Claim C10 witness: concrete gating — image lookup fails when image
processing is disabled, an unknown type maps to the generic processor, and a
table item is skipped by the loop when table processing is disabled. -/
theorem c10_processor_gating_witness :
    getProcessorForType (initProcessors { enableImageProcessing := false }) "image" = none ∧
    getProcessorForType (initProcessors {}) "custom_type" = some .generic ∧
    processItemsLoop (repairedRunner stubEnv "doc.pdf")
        (initProcessors { enableTableProcessing := false }) [tableBlockC2] emptyStore =
      processItemsLoop (repairedRunner stubEnv "doc.pdf")
        (initProcessors { enableTableProcessing := false }) [] emptyStore :=
  ⟨(c10_processor_gating.1 { enableImageProcessing := false }).1 rfl,
   c10_processor_gating.2.1 {} "custom_type" (by decide) (by decide) (by decide),
   c10_processor_gating.2.2 (repairedRunner stubEnv "doc.pdf")
     (initProcessors { enableTableProcessing := false }) tableBlockC2 [] emptyStore
     (by decide)⟩

/-- Claim C5: if the persisted DocumentStatus already has
`multimodal_processed = true` and records at least as many multimodal chunks
as there are items to process, re-running the modal-processing stage returns
the store unchanged — no chunk creation, entity creation, status write or
merge call happens (this holds for every runner, so independently of any
per-item behaviour). -/
theorem c5_resume_short_circuit (run : ItemRunner) (procs : List (String × Processor))
    (items : List ContentBlock) (st : Store) (ds : DocStatus)
    (h1 : st.docStatus = some ds) (h2 : ds.multimodalProcessed = true)
    (h3 : items.length ≤ ds.multimodalChunksList.length) :
    processMultimodalContent run procs items st = st := by
  cases items with
  | nil => rfl
  | cons i rest =>
    have hrs : resumeShortCircuit st (i :: rest) = true := by
      simp [resumeShortCircuit, h1, h2]
      exact h3
    simp [processMultimodalContent, hrs]

/-- Claim C5 witness: a store already marked processed with one recorded
multimodal chunk is returned unchanged when re-processing one image item. -/
theorem c5_resume_short_circuit_witness :
    processMultimodalContent (repairedRunner stubEnv "doc.pdf") (initProcessors {})
        [figBlock]
        { docStatus := some { chunksCount := 1, multimodalChunksList := ["chunk-old"],
                              multimodalChunksCount := 1, multimodalProcessed := true } } =
      { docStatus := some { chunksCount := 1, multimodalChunksList := ["chunk-old"],
                            multimodalChunksCount := 1, multimodalProcessed := true } } :=
  c5_resume_short_circuit (repairedRunner stubEnv "doc.pdf") (initProcessors {})
    [figBlock] _
    { chunksCount := 1, multimodalChunksList := ["chunk-old"],
      multimodalChunksCount := 1, multimodalProcessed := true }
    rfl rfl (by decide)

/-- Claim C2 (amended): whenever the item loop produced at least one chunk id
and at least one chunk result and a document-status record exists, the run
ends with the status upsert that sets `multimodal_processed = true` — issued
regardless of whether every modal item produced a chunk — followed by the
coordinated merge: the `statusUpsert true` event strictly precedes the
`mergeCall` event, i.e. the flag is persisted after per-item chunk creation
but BEFORE the graph merge, and also when some items were skipped or
failed. -/
theorem c2_status_before_merge (run : ItemRunner) (procs : List (String × Processor))
    (items : List ContentBlock) (st : Store) (crs : List ChunkResult)
    (ids : List String) (st1 : Store) (cur : DocStatus)
    (h0 : items ≠ []) (h1 : resumeShortCircuit st items = false)
    (h2 : processItemsLoop run procs items st = (crs, ids, st1))
    (h3 : ids ≠ []) (h4 : crs ≠ []) (h5 : st1.docStatus = some cur) :
    processMultimodalContent run procs items st =
      (st1.upsertStatus
        { cur with multimodalChunksList := cur.multimodalChunksList ++ ids,
                   multimodalChunksCount := (cur.multimodalChunksList ++ ids).length,
                   multimodalProcessed := true }).mergeAndFlush ∧
    (processMultimodalContent run procs items st).events =
      st1.events ++ [.statusUpsert true, .mergeCall, .insertDone] := by
  have hne : items.isEmpty = false := by
    cases items with
    | nil => exact absurd rfl h0
    | cons a l => rfl
  have hids : ids.isEmpty = false := by
    cases ids with
    | nil => exact absurd rfl h3
    | cons a l => rfl
  have hcrs : crs.isEmpty = false := by
    cases crs with
    | nil => exact absurd rfl h4
    | cons a l => rfl
  have key : processMultimodalContent run procs items st =
      (st1.upsertStatus
        { cur with multimodalChunksList := cur.multimodalChunksList ++ ids,
                   multimodalChunksCount := (cur.multimodalChunksList ++ ids).length,
                   multimodalProcessed := true }).mergeAndFlush := by
    simp only [processMultimodalContent, hne, h1, h2, hids, hcrs, h5]
    simp [hids, hcrs]
  refine ⟨key, ?_⟩
  rw [key]
  simp [Store.upsertStatus, Store.mergeAndFlush, Store.pushEvent, List.append_assoc]

/-- Claim C2 witness: the single-image run — the final store is exactly the
post-loop store with the status upsert (flag true) applied and then the
merge, and the event trace shows `statusUpsert true` before `mergeCall`. -/
theorem c2_status_before_merge_witness :
    processMultimodalContent (repairedRunner stubEnv "doc.pdf") (initProcessors {})
        [figBlock] stAfterText =
      (c2LoopStore.upsertStatus
        { chunksCount := 1, multimodalChunksList := ["chunk-H"],
          multimodalChunksCount := 1, multimodalProcessed := true }).mergeAndFlush ∧
    (processMultimodalContent (repairedRunner stubEnv "doc.pdf") (initProcessors {})
        [figBlock] stAfterText).events =
      c2LoopStore.events ++ [.statusUpsert true, .mergeCall, .insertDone] :=
  c2_status_before_merge (repairedRunner stubEnv "doc.pdf") (initProcessors {})
    [figBlock] stAfterText [([], [])] ["chunk-H"] c2LoopStore { chunksCount := 1 }
    (by decide) (by decide) (by decide) (by decide) (by decide) (by decide)

/-- Claim C2 counterexample: a two-item run (a table item with table
processing disabled, then the image item) ends with
`multimodal_processed = true` although only one of the two modal items
produced a chunk (count 1 < 2 items), and the `statusUpsert true` event
(position 5 of the trace) precedes the `mergeCall` event (position 6) — so
the flag is set while a modal item failed to produce a chunk and before the
merge has finished, refuting the claimed invariant. -/
theorem c2_counterexample :
    (processMultimodalContent (repairedRunner stubEnv "doc.pdf")
        (initProcessors { enableTableProcessing := false })
        [tableBlockC2, figBlock] stAfterText).docStatus =
      some { chunksCount := 1, multimodalChunksList := ["chunk-H"],
             multimodalChunksCount := 1, multimodalProcessed := true } ∧
    [tableBlockC2, figBlock].length = 2 ∧
    (processMultimodalContent (repairedRunner stubEnv "doc.pdf")
        (initProcessors { enableTableProcessing := false })
        [tableBlockC2, figBlock] stAfterText).events =
      [.chunkUpsert "chunk-H", .nodeUpsert "fig1 (image)", .entityVdbUpsert "ent-H",
       .chunkVdbUpsert "chunk-H", .statusUpsert true, .mergeCall, .insertDone] :=
  ⟨rfl, rfl, rfl⟩

/-- Claim C1: the end-to-end scenario.  The classified text stream is
"Intro\n\nConclusion".  Under the faithful call semantics of this src
snapshot (`brokenRunner`: processor.py passes `doc_id` / `chunk_order_index`
kwargs that the modalprocessors.py signatures do not accept, so every item
call raises TypeError and is skipped) the pipeline persists NO chunk, NO
graph node, performs no merge, and leaves `multimodal_processed` false — the
claimed outcome does not occur.  Under the intended integration modelled from
the spec (`repairedRunner`) the scenario produces exactly one persisted chunk,
one graph node named "fig1 (image)", and a final DocumentStatus with
`multimodal_processed = true` and `multimodal_chunks_count = 1`. -/
theorem c1_end_to_end_scenario :
    (separateContent scenarioContent).1 = "Intro\n\nConclusion" ∧
    ((processDocumentComplete brokenRunner (initProcessors {}) scenarioContent
        emptyStore).textChunks.length = 0 ∧
      (processDocumentComplete brokenRunner (initProcessors {}) scenarioContent
        emptyStore).graphNodes = [] ∧
      (processDocumentComplete brokenRunner (initProcessors {}) scenarioContent
        emptyStore).mergeCalls = 0 ∧
      (processDocumentComplete brokenRunner (initProcessors {}) scenarioContent
        emptyStore).docStatus = some { chunksCount := 1 }) ∧
    ((processDocumentComplete (repairedRunner stubEnv "fig_doc.pdf") (initProcessors {})
        scenarioContent emptyStore).textChunks.length = 1 ∧
      (processDocumentComplete (repairedRunner stubEnv "fig_doc.pdf") (initProcessors {})
        scenarioContent emptyStore).graphNodes.map Prod.fst = ["fig1 (image)"] ∧
      (processDocumentComplete (repairedRunner stubEnv "fig_doc.pdf") (initProcessors {})
        scenarioContent emptyStore).docStatus =
        some { chunksCount := 1, multimodalChunksList := ["chunk-H"],
               multimodalChunksCount := 1, multimodalProcessed := true }) :=
  ⟨rfl, ⟨rfl, rfl, rfl, rfl⟩, ⟨rfl, rfl, rfl⟩⟩

/-- Claim C6 witness: concrete lookups — a successful hit forces stored mtime
and config equal to the current ones, and an mtime mismatch is a miss. -/
theorem c6_cache_validity_witness :
    (∃ cd, (some (CacheEntry.mk [introBlock] "doc-1" 3 ⟨"mineru", "auto", []⟩) : Option CacheEntry)
        = some cd ∧ cd.mtime = 3 ∧ cd.parseConfig = ⟨"mineru", "auto", []⟩ ∧
        ([introBlock], "doc-1") = (cd.contentList, cd.docId)) ∧
    getCachedResult (some (CacheEntry.mk [introBlock] "doc-1" 3 ⟨"mineru", "auto", []⟩))
        4 ⟨"mineru", "auto", []⟩ = none :=
  ⟨c6_cache_validity.1 (some (CacheEntry.mk [introBlock] "doc-1" 3 ⟨"mineru", "auto", []⟩))
      3 ⟨"mineru", "auto", []⟩ ([introBlock], "doc-1") (by decide),
   c6_cache_validity.2 (CacheEntry.mk [introBlock] "doc-1" 3 ⟨"mineru", "auto", []⟩)
      4 ⟨"mineru", "auto", []⟩ (Or.inl (by decide))⟩

end RAGA
